import Mathlib

/-!
Shallow embedding of the x402 payment core of the Lucid Sandbox Agent:
`src/lib/x402-payments.ts` (payload parsing, local verification checks,
facilitator fallback) and `src/middleware/x402.ts` (the mandatory and
optional payment gates).  JavaScript numbers that stay on integral values
are modelled as `Int`; decimal currency amounts are modelled as exact
rationals (`ℚ`), so `Math.floor(a * 1_000_000)` becomes `⌊a * 1000000⌋`.
`parseInt` is modelled as `Option Int`, `none` standing for `NaN`, and the
JavaScript comparisons `<`/`>` on a possible `NaN` are modelled by
`jsLt`/`jsGt`, which are false whenever an operand is `NaN`.  The current
Unix time, the facilitator's observable behaviour and unexpected runtime
exceptions are explicit inputs, since the TypeScript code reads them from
the outside world (`Date.now`, `fetch`, the runtime).
-/

namespace X402

/-- Slice of the `CONFIG` object (from `config.ts`, consumed read-only by the
payment core): receiving wallet, deployment mode, network name and asset
address. -/
structure Config where
  walletsBase : String
  nodeEnv : String
  networkName : String
  usdcAddress : String
deriving DecidableEq

/-- A fully populated payment payload, as produced by a successful
`parsePaymentHeader` (interface `PaymentPayload`).  The field `from` of the
TypeScript interface is spelled `from'` because `from` is a Lean keyword. -/
structure PaymentPayload where
  scheme : String
  signature : String
  from' : String
  to' : String
  value : String
  validAfter : String
  validBefore : String
  nonce : String
deriving DecidableEq

/-- The raw object obtained from `JSON.parse` before the mandatory-field
check: every field may be absent (`undefined`). -/
structure RawPayload where
  scheme : Option String
  signature : Option String
  from' : Option String
  to' : Option String
  value : Option String
  validAfter : Option String
  validBefore : Option String
  nonce : Option String
deriving DecidableEq

/-- Result of the verification pipeline (interface `VerificationResponse`). -/
structure VerificationResponse where
  valid : Bool
  transactionHash : Option String := none
  error : Option String := none
deriving DecidableEq

/-- JavaScript truthiness of a string-or-undefined value: falsy iff absent
or the empty string. -/
def falsy : Option String → Bool
  | none => true
  | some s => s = ""

/-- Drop leading JSON whitespace. -/
def skipWs : List Char → List Char
  | [] => []
  | c :: cs => if c = ' ' ∨ c = '\n' ∨ c = '\t' ∨ c = '\r' then skipWs cs else c :: cs

/-- Read the characters of a JSON string literal after its opening quote;
returns the content and the remainder after the closing quote.  Escape
sequences are out of the modelled fragment (a backslash fails the parse). -/
def takeStringChars : List Char → Option (List Char × List Char)
  | [] => none
  | c :: cs =>
    if c = '"' then some ([], cs)
    else if c = '\\' then none
    else (takeStringChars cs).map (fun p => (c :: p.1, p.2))

/-- Parse one or more comma-separated `"key":"value"` pairs followed by the
closing brace of the object.  The first argument is recursion fuel. -/
def parsePairs : Nat → List Char → Option (List (String × String) × List Char)
  | 0, _ => none
  | fuel + 1, cs =>
    match skipWs cs with
    | '"' :: cs1 =>
      match takeStringChars cs1 with
      | none => none
      | some (k, cs2) =>
        match skipWs cs2 with
        | ':' :: cs3 =>
          match skipWs cs3 with
          | '"' :: cs4 =>
            match takeStringChars cs4 with
            | none => none
            | some (v, cs5) =>
              match skipWs cs5 with
              | ',' :: cs6 =>
                (parsePairs fuel cs6).map
                  (fun p => ((String.mk k, String.mk v) :: p.1, p.2))
              | '}' :: cs6 => some ([(String.mk k, String.mk v)], cs6)
              | _ => none
          | _ => none
        | _ => none
    | _ => none

/-- Model of `JSON.parse` restricted to the fragment this code exchanges:
a flat object whose values are strings.  Anything outside that fragment is
a parse failure (`none`), which the TypeScript code observes as a thrown
`SyntaxError`. -/
def jsonParse (s : String) : Option (List (String × String)) :=
  match skipWs s.data with
  | '{' :: cs =>
    match skipWs cs with
    | '}' :: rest => if (skipWs rest).isEmpty then some [] else none
    | _ =>
      match parsePairs (cs.length + 1) cs with
      | some (ps, rest) => if (skipWs rest).isEmpty then some ps else none
      | none => none
  | _ => none

/-- Property access on the parsed JSON object: the last binding of a key
wins, absent keys give `undefined`. -/
def getField (ps : List (String × String)) (k : String) : Option String :=
  (List.lookup k ps.reverse)

/-- View the parsed JSON object through the eight fields of
`PaymentPayload` (the `as PaymentPayload` cast in the source). -/
def decodeRaw (ps : List (String × String)) : RawPayload :=
  { scheme := getField ps "scheme"
    signature := getField ps "signature"
    from' := getField ps "from"
    to' := getField ps "to"
    value := getField ps "value"
    validAfter := getField ps "validAfter"
    validBefore := getField ps "validBefore"
    nonce := getField ps "nonce" }

/-- The mandatory-field check of `parsePaymentHeader`: the source throws
(`Missing required payment fields`) when any of the eight fields is falsy,
and the surrounding catch turns that into `null`.  A payload is returned
only when every field is present and non-empty. -/
def parseFields (r : RawPayload) : Option PaymentPayload := do
  let s ← r.scheme
  let sig ← r.signature
  let f ← r.from'
  let t ← r.to'
  let v ← r.value
  let va ← r.validAfter
  let vb ← r.validBefore
  let n ← r.nonce
  if s = "" ∨ sig = "" ∨ f = "" ∨ t = "" ∨ v = "" ∨ va = "" ∨ vb = "" ∨ n = "" then none
  else some ⟨s, sig, f, t, v, va, vb, n⟩

/-- `X402PaymentManager.parsePaymentHeader`: `null`/empty header → `null`;
JSON decode failure → `null`; any falsy mandatory field → `null`;
otherwise the structured payload. -/
def parsePaymentHeader (header : Option String) : Option PaymentPayload :=
  match header with
  | none => none
  | some h =>
    if h = "" then none
    else
      match jsonParse h with
      | none => none
      | some ps => parseFields (decodeRaw ps)

/-- Leading decimal digits of a character list. -/
def takeDigits : List Char → List Char × List Char
  | [] => ([], [])
  | c :: cs =>
    if c.isDigit then
      let p := takeDigits cs
      (c :: p.1, p.2)
    else ([], c :: cs)

/-- Model of JavaScript `parseInt` on the base-10 inputs this code receives:
skip whitespace, optional sign, then the longest digit prefix; `none`
stands for `NaN` (no digit prefix). -/
def parseIntJs (s : String) : Option Int :=
  let cs := skipWs s.data
  let signed : Bool × List Char :=
    match cs with
    | '-' :: r => (true, r)
    | '+' :: r => (false, r)
    | r => (false, r)
  let ds := (takeDigits signed.2).1
  if ds.isEmpty then none
  else
    let n : Int := Int.ofNat (ds.foldl (fun acc c => acc * 10 + (c.toNat - 48)) 0)
    some (if signed.1 then -n else n)

/-- JavaScript `<` where either side may be `NaN`: any comparison with
`NaN` is false. -/
def jsLt : Option Int → Option Int → Bool
  | some a, some b => decide (a < b)
  | _, _ => false

/-- JavaScript `>` where either side may be `NaN`. -/
def jsGt : Option Int → Option Int → Bool
  | some a, some b => decide (a > b)
  | _, _ => false

/-- String interpolation of a possibly-`NaN` JavaScript integer. -/
def jsNumToString : Option Int → String
  | none => "NaN"
  | some n => toString n

/-- JavaScript `String.prototype.toLowerCase` on the ASCII addresses this
code compares. -/
def toLowerCase (s : String) : String := String.mk (s.data.map Char.toLower)

/-- JavaScript `String.prototype.padEnd`. -/
def padEnd (s : String) (n : Nat) (c : Char) : String :=
  s ++ String.mk (List.replicate (n - s.length) c)

/-- The conversion `Math.floor(amount * 1_000_000)` used by
`createPaymentRequirement` and by the amount check of `verifyPayment`. -/
def toSmallestUnit (amount : ℚ) : Int := ⌊amount * 1000000⌋

/-- The conversion `config.amount * 1_000_000` performed inline by
`requirePayment` when it builds the 402 requirement body: unlike
`toSmallestUnit` it applies no `Math.floor`. -/
def midMaxAmountRequired (amount : ℚ) : ℚ := amount * 1000000

/-- Decimal digits of a fractional part `0 ≤ q < 1`; `none` when the
expansion does not terminate within the fuel (never the case for the
binary-fraction values JavaScript numbers can hold). -/
def fracDigits : Nat → ℚ → Option (List Char)
  | 0, _ => none
  | fuel + 1, q =>
    if q = 0 then some []
    else
      let d : ℤ := ⌊q * 10⌋
      match fracDigits fuel (q * 10 - (d : ℚ)) with
      | some ds => some (Char.ofNat (48 + d.toNat) :: ds)
      | none => none

/-- Model of JavaScript `Number.prototype.toString` on finite decimal
values: integral values print with no decimal point, fractional ones as
`intPart.fracDigits`. -/
def jsNumberToString (q : ℚ) : String :=
  let sign := if q < 0 then "-" else ""
  let a := |q|
  let ip : Nat := (⌊a⌋).toNat
  match fracDigits 1100 (a - (⌊a⌋ : ℚ)) with
  | some [] => sign ++ toString ip
  | some ds => sign ++ toString ip ++ "." ++ String.mk ds
  | none => sign ++ toString ip ++ ".…"

/-- The payment requirement object (interface `PaymentRequirement`). -/
structure PaymentRequirement where
  maxAmountRequired : String
  resource : String
  description : String
  payTo : String
  asset : String
  network : String
  scheme : String
deriving DecidableEq

/-- `X402PaymentManager.createPaymentRequirement`: converts the decimal
amount with `Math.floor(amount * 1_000_000).toString()` and fills the rest
from configuration. -/
def createPaymentRequirement (cfg : Config) (amount : ℚ)
    (resource description : String) : PaymentRequirement :=
  { maxAmountRequired := toString (toSmallestUnit amount)
    resource := resource
    description := description
    payTo := cfg.walletsBase
    asset := cfg.usdcAddress
    network := cfg.networkName
    scheme := "eip3009" }

/-- Observable behaviour of the facilitator `fetch`: an ok response with a
transaction hash, a non-ok response (with the `error` field of its JSON
body when that body parsed), or a thrown network/JSON error (unreachable
host, timeout, malformed body on the ok path). -/
inductive FacilitatorOutcome where
  | httpOk (transactionHash : String)
  | httpErr (errField : Option String)
  | netFail
deriving DecidableEq

/-- `X402PaymentManager.verifyWithFacilitator`: ok response → success with
the returned hash; non-ok response → failure with the body's error field
(or its fallback text); thrown network error → in `development` mode a
simulated success whose hash is the nonce padded to 64 characters,
otherwise the facilitator-unavailable failure. -/
def verifyWithFacilitator (cfg : Config) (payload : PaymentPayload)
    (fac : FacilitatorOutcome) : VerificationResponse :=
  match fac with
  | .httpOk tx => { valid := true, transactionHash := some tx, error := none }
  | .httpErr e =>
    { valid := false, transactionHash := none
      error := some (e.getD "Facilitator verification failed") }
  | .netFail =>
    if cfg.nodeEnv = "development" then
      { valid := true
        transactionHash := some ("0x" ++ padEnd payload.nonce 64 '0')
        error := none }
    else
      { valid := false, transactionHash := none
        error := some "Failed to communicate with payment facilitator" }

/-- `X402PaymentManager.verifyPayment`, with the hidden inputs explicit:
`now` is `Math.floor(Date.now() / 1000)`, `fac` the facilitator's
behaviour, and `exn` an unexpected exception thrown inside the body (the
source's own `catch` turns it into `valid=false` with the exception
message).  The second component records whether the facilitator was
called. -/
def verifyPaymentRun (cfg : Config) (payload : PaymentPayload)
    (requiredAmount : ℚ) (now : Int) (fac : FacilitatorOutcome)
    (exn : Option String) : VerificationResponse × Bool :=
  match exn with
  | some msg => ({ valid := false, transactionHash := none, error := some msg }, false)
  | none =>
    if payload.scheme ≠ "eip3009" then
      ({ valid := false, transactionHash := none
         error := some "Unsupported payment scheme" }, false)
    else if toLowerCase payload.to' ≠ toLowerCase cfg.walletsBase then
      ({ valid := false, transactionHash := none
         error := some "Invalid recipient address" }, false)
    else
      let requiredAmountSmallest : Int := toSmallestUnit requiredAmount
      let paidAmount : Option Int := parseIntJs payload.value
      if jsLt paidAmount (some requiredAmountSmallest) then
        ({ valid := false, transactionHash := none
           error := some ("Insufficient payment: " ++ jsNumToString paidAmount
             ++ " < " ++ toString requiredAmountSmallest) }, false)
      else
        let validAfter := parseIntJs payload.validAfter
        let validBefore := parseIntJs payload.validBefore
        if jsLt (some now) validAfter || jsGt (some now) validBefore then
          ({ valid := false, transactionHash := none
             error := some "Payment authorization expired" }, false)
        else
          (verifyWithFacilitator cfg payload fac, true)

/-- The verification result of `verifyPayment`. -/
def verifyPayment (cfg : Config) (payload : PaymentPayload)
    (requiredAmount : ℚ) (now : Int) (fac : FacilitatorOutcome)
    (exn : Option String) : VerificationResponse :=
  (verifyPaymentRun cfg payload requiredAmount now fac exn).1

/-- Whether `verifyPayment` reached the facilitator network call. -/
def facilitatorCalled (cfg : Config) (payload : PaymentPayload)
    (requiredAmount : ℚ) (now : Int) (fac : FacilitatorOutcome)
    (exn : Option String) : Bool :=
  (verifyPaymentRun cfg payload requiredAmount now fac exn).2

/-- The `x402Payment` context the middlewares attach to the request. -/
structure PaymentContext where
  verified : Bool
  amount : ℚ
  transactionHash : Option String := none
  payer : Option String := none
deriving DecidableEq

/-- The observable parts of a JSON response sent by the middleware: status
code, the body's `error` and `message` fields, and — for the 402
payment-required body — the `maxAmountRequired` string of its single
`accepts` entry. -/
structure HttpResponse where
  status : Nat
  error : Option String := none
  message : Option String := none
  maxAmountRequired : Option String := none
deriving DecidableEq

/-- What a middleware invocation does with the request: respond and stop,
or call `next` with the request's `x402Payment` context (`none` when the
middleware never assigned it). -/
inductive MwOutcome where
  | respond (r : HttpResponse)
  | next (ctx : Option PaymentContext)
deriving DecidableEq

/-- The slice of the Express request the middlewares read: HTTP method,
path, and the `x-payment` header (`none` when absent). -/
structure Request where
  method : String
  path : String
  xPaymentHeader : Option String
deriving DecidableEq

/-- `X402MiddlewareConfig`: required amount in USDC and a description. -/
structure X402MiddlewareConfig where
  amount : ℚ
  description : String
deriving DecidableEq

/-- The 402 payment-required response `requirePayment` sends when no header
is supplied; its single `accepts` entry carries
`(config.amount * 1_000_000).toString()` — with no `Math.floor`. -/
def paymentRequiredResponse (mw : X402MiddlewareConfig) : HttpResponse :=
  { status := 402
    error := some "Payment Required"
    message := none
    maxAmountRequired := some (jsNumberToString (midMaxAmountRequired mw.amount)) }

/-- The context attached by `optionalPayment` on each of its failure
paths. -/
def unverifiedContext : PaymentContext :=
  { verified := false, amount := 0, transactionHash := none, payer := none }

/-- Middleware `requirePayment` (mandatory mode).  `mwExn` models an
unexpected exception thrown by the payment-processing steps of the handler
body (which the method guard precedes and which cannot itself throw);
`verifyExn` is the exception input of `verifyPayment`. -/
def requirePayment (cfg : Config) (mw : X402MiddlewareConfig) (req : Request)
    (now : Int) (fac : FacilitatorOutcome) (mwExn : Bool)
    (verifyExn : Option String) : MwOutcome :=
  if req.method ≠ "POST" then .next none
  else if mwExn then
    .respond { status := 500, error := some "Internal Server Error"
               message := some "Payment processing failed" }
  else
    match req.xPaymentHeader with
    | none => .respond (paymentRequiredResponse mw)
    | some h =>
      if h = "" then .respond (paymentRequiredResponse mw)
      else
        match parsePaymentHeader (some h) with
        | none =>
          .respond { status := 400, error := some "Invalid Payment"
                     message := some "Could not parse X-PAYMENT header" }
        | some payload =>
          let v := verifyPayment cfg payload mw.amount now fac verifyExn
          if v.valid = false then
            .respond { status := 402, error := some "Payment Verification Failed"
                       message := some (v.error.getD "Payment could not be verified") }
          else
            .next (some { verified := true, amount := mw.amount
                          transactionHash := v.transactionHash
                          payer := some payload.from' })

/-- Middleware `optionalPayment`.  Its catch handler attaches the
unverified context and calls `next`, which is what any uncaught exception
(`mwExn`) converges to.  Note that when the header is present but fails to
parse, the source assigns `req.x402Payment` only inside
`if (paymentPayload) { ... }`, so on that path `next` runs with the
context never assigned. -/
def optionalPayment (cfg : Config) (mw : X402MiddlewareConfig) (req : Request)
    (now : Int) (fac : FacilitatorOutcome) (mwExn : Bool)
    (verifyExn : Option String) : MwOutcome :=
  if mwExn then .next (some unverifiedContext)
  else
    match req.xPaymentHeader with
    | none => .next (some unverifiedContext)
    | some h =>
      if h = "" then .next (some unverifiedContext)
      else
        match parsePaymentHeader (some h) with
        | none => .next none
        | some payload =>
          let v := verifyPayment cfg payload mw.amount now fac verifyExn
          if v.valid then
            .next (some { verified := true, amount := mw.amount
                          transactionHash := v.transactionHash
                          payer := some payload.from' })
          else
            .next (some unverifiedContext)

/-! Concrete deployment data used to instantiate the theorems below. -/

/-- A production-mode configuration. -/
def cfgProd : Config := ⟨"0xAbC", "production", "base", "0xUSDC"⟩

/-- A development-mode configuration. -/
def cfgDev : Config := ⟨"0xAbC", "development", "base", "0xUSDC"⟩

/-- A middleware configuration charging 2 USDC. -/
def mwEx : X402MiddlewareConfig := ⟨2, "Code execution"⟩

/-- A well-formed `X-PAYMENT` header paying 2000000 smallest units. -/
def headerEx : String :=
  "\x7b\"scheme\":\"eip3009\",\"signature\":\"sig\",\"from\":\"0xpayer\",\"to\":\"0xAbC\",\"value\":\"2000000\",\"validAfter\":\"0\",\"validBefore\":\"100\",\"nonce\":\"n1\"\x7d"

/-- The payload `headerEx` parses to. -/
def payloadEx : PaymentPayload :=
  ⟨"eip3009", "sig", "0xpayer", "0xAbC", "2000000", "0", "100", "n1"⟩

/-- `payloadEx` with an unsupported scheme. -/
def payloadOther : PaymentPayload :=
  ⟨"other", "sig", "0xpayer", "0xAbC", "2000000", "0", "100", "n1"⟩

/-- `payloadEx` paying one smallest unit less than required. -/
def payloadUnderpay : PaymentPayload :=
  ⟨"eip3009", "sig", "0xpayer", "0xAbC", "1999999", "0", "100", "n1"⟩

/-- A POST request carrying `headerEx`. -/
def reqEx : Request := ⟨"POST", "/api/execute", some headerEx⟩

/-- Evaluation of the floor conversion at the sample amount 2 USDC. -/
theorem tsu_two : toSmallestUnit 2 = 2000000 := by
  norm_num [toSmallestUnit]

/-- Evaluation of the floor conversion at the documented amount 0.02 USDC. -/
theorem tsu_two_cents : toSmallestUnit 0.02 = 20000 := by
  norm_num [toSmallestUnit]

/-- On a whole number, the model of JavaScript number printing agrees with
`Nat` printing. -/
theorem jsNumberToString_natCast (n : ℕ) : jsNumberToString (n : ℚ) = toString n := by
  have h0 : ¬ ((n : ℚ) < 0) := not_lt.mpr (Nat.cast_nonneg n)
  have habs : |(n : ℚ)| = (n : ℚ) := abs_of_nonneg (Nat.cast_nonneg n)
  have hfl : (⌊(n : ℚ)⌋ : ℤ) = (n : ℤ) := Int.floor_natCast n
  have hd : fracDigits 1100 ((n : ℚ) - ((n : ℤ) : ℚ)) = some [] := by
    have hz : ((n : ℚ) - ((n : ℤ) : ℚ)) = 0 := by push_cast; ring
    rw [hz]
    show fracDigits (1099 + 1) 0 = some []
    simp [fracDigits]
  unfold jsNumberToString
  simp only [if_neg h0, habs, hfl, hd, Int.toNat_natCast]
  rfl

/-- C10: a request whose method is not POST passes straight through the
mandatory-mode gate: `requirePayment` calls `next`, emits no response, and
attaches no payment context, whatever the header, the facilitator, the
clock or any fault input. -/
theorem non_post_requests_bypass_gate
    (cfg : Config) (mw : X402MiddlewareConfig) (req : Request) (now : Int)
    (fac : FacilitatorOutcome) (mwExn : Bool) (verifyExn : Option String)
    (hm : req.method ≠ "POST") :
    requirePayment cfg mw req now fac mwExn verifyExn = .next none := by
  simp [requirePayment, hm]

/-- Witness for `non_post_requests_bypass_gate` at a GET request. -/
theorem non_post_requests_bypass_gate_witness :
    requirePayment cfgProd mwEx ⟨"GET", "/api/execute", some headerEx⟩ 50
      FacilitatorOutcome.netFail true (some "boom") = .next none :=
  non_post_requests_bypass_gate cfgProd mwEx ⟨"GET", "/api/execute", some headerEx⟩ 50
    FacilitatorOutcome.netFail true (some "boom") (by decide)

/-- C4: when the facilitator network call throws (unreachable, timeout, or
an unreadable response body), `verifyWithFacilitator` returns a simulated
success in development mode — deterministic, with a transaction hash built
from the authorization's nonce — and in every other deployment mode the
facilitator-unavailable failure: `valid = false`, the fixed error string,
and no transaction identifier. -/
theorem facilitator_network_failure_fallback
    (cfg : Config) (payload : PaymentPayload) :
    (cfg.nodeEnv = "development" →
      verifyWithFacilitator cfg payload .netFail =
        { valid := true, transactionHash := some ("0x" ++ padEnd payload.nonce 64 '0')
          error := none }) ∧
    (cfg.nodeEnv ≠ "development" →
      verifyWithFacilitator cfg payload .netFail =
        { valid := false, transactionHash := none
          error := some "Failed to communicate with payment facilitator" }) := by
  constructor <;> intro h <;> simp [verifyWithFacilitator, h]

/-- Witness for `facilitator_network_failure_fallback` in both modes. -/
theorem facilitator_network_failure_fallback_witness :
    verifyWithFacilitator cfgDev payloadEx .netFail =
      { valid := true, transactionHash := some ("0x" ++ padEnd payloadEx.nonce 64 '0')
        error := none } ∧
    verifyWithFacilitator cfgProd payloadEx .netFail =
      { valid := false, transactionHash := none
        error := some "Failed to communicate with payment facilitator" } :=
  ⟨(facilitator_network_failure_fallback cfgDev payloadEx).1 rfl,
   (facilitator_network_failure_fallback cfgProd payloadEx).2 (by decide)⟩

/-- C6: `verifyPayment` runs its local checks in the strict order scheme,
recipient, amount, time window, each failure short-circuiting with its own
error and without calling the facilitator; the facilitator is called
exactly when all four local checks pass.  In particular a scheme other
than "eip3009" yields `valid = false` with the unsupported-scheme error
and no facilitator call. -/
theorem local_checks_order_and_facilitator_gating
    (cfg : Config) (payload : PaymentPayload) (a : ℚ) (now : Int)
    (fac : FacilitatorOutcome) :
    (payload.scheme ≠ "eip3009" →
      verifyPaymentRun cfg payload a now fac none =
        ({ valid := false, transactionHash := none
           error := some "Unsupported payment scheme" }, false)) ∧
    (payload.scheme = "eip3009" →
     toLowerCase payload.to' ≠ toLowerCase cfg.walletsBase →
      verifyPaymentRun cfg payload a now fac none =
        ({ valid := false, transactionHash := none
           error := some "Invalid recipient address" }, false)) ∧
    (payload.scheme = "eip3009" →
     toLowerCase payload.to' = toLowerCase cfg.walletsBase →
     jsLt (parseIntJs payload.value) (some (toSmallestUnit a)) = true →
      verifyPaymentRun cfg payload a now fac none =
        ({ valid := false, transactionHash := none
           error := some ("Insufficient payment: " ++ jsNumToString (parseIntJs payload.value)
             ++ " < " ++ toString (toSmallestUnit a)) }, false)) ∧
    (payload.scheme = "eip3009" →
     toLowerCase payload.to' = toLowerCase cfg.walletsBase →
     jsLt (parseIntJs payload.value) (some (toSmallestUnit a)) = false →
     (jsLt (some now) (parseIntJs payload.validAfter)
       || jsGt (some now) (parseIntJs payload.validBefore)) = true →
      verifyPaymentRun cfg payload a now fac none =
        ({ valid := false, transactionHash := none
           error := some "Payment authorization expired" }, false)) ∧
    (payload.scheme = "eip3009" →
     toLowerCase payload.to' = toLowerCase cfg.walletsBase →
     jsLt (parseIntJs payload.value) (some (toSmallestUnit a)) = false →
     (jsLt (some now) (parseIntJs payload.validAfter)
       || jsGt (some now) (parseIntJs payload.validBefore)) = false →
      verifyPaymentRun cfg payload a now fac none =
        (verifyWithFacilitator cfg payload fac, true)) ∧
    (facilitatorCalled cfg payload a now fac none = true →
      payload.scheme = "eip3009" ∧
      toLowerCase payload.to' = toLowerCase cfg.walletsBase ∧
      jsLt (parseIntJs payload.value) (some (toSmallestUnit a)) = false ∧
      (jsLt (some now) (parseIntJs payload.validAfter)
        || jsGt (some now) (parseIntJs payload.validBefore)) = false) := by
  refine ⟨?_, ?_, ?_, ?_, ?_, ?_⟩
  · intro h1
    simp [verifyPaymentRun, h1]
  · intro h1 h2
    simp [verifyPaymentRun, h1, h2]
  · intro h1 h2 h3
    simp [verifyPaymentRun, h1, h2, h3]
  · intro h1 h2 h3 h4
    simp [verifyPaymentRun, h1, h2, h3, h4]
  · intro h1 h2 h3 h4
    simp [verifyPaymentRun, h1, h2, h3, h4]
  · intro hcall
    by_cases h1 : payload.scheme = "eip3009"
    · by_cases h2 : toLowerCase payload.to' = toLowerCase cfg.walletsBase
      · by_cases h3 : jsLt (parseIntJs payload.value) (some (toSmallestUnit a)) = true
        · simp [facilitatorCalled, verifyPaymentRun, h1, h2, h3] at hcall
        · have h3' : jsLt (parseIntJs payload.value) (some (toSmallestUnit a)) = false := by
            simpa using h3
          by_cases h4 : (jsLt (some now) (parseIntJs payload.validAfter)
              || jsGt (some now) (parseIntJs payload.validBefore)) = true
          · simp [facilitatorCalled, verifyPaymentRun, h1, h2, h3', h4] at hcall
          · exact ⟨h1, h2, h3', by simpa using h4⟩
      · simp [facilitatorCalled, verifyPaymentRun, h1, h2] at hcall
    · simp [facilitatorCalled, verifyPaymentRun, h1] at hcall

/-- Witness for `local_checks_order_and_facilitator_gating`: a scheme
mismatch is rejected without reaching the facilitator. -/
theorem local_checks_order_and_facilitator_gating_witness :
    verifyPaymentRun cfgProd payloadOther 2 50 (.httpOk "t") none =
      ({ valid := false, transactionHash := none
         error := some "Unsupported payment scheme" }, false) :=
  (local_checks_order_and_facilitator_gating cfgProd payloadOther 2 50 (.httpOk "t")).1
    (by decide)

/-- C7: once the scheme and recipient checks pass, the amount check of
`verifyPayment` accepts any paid value greater than or equal to the
required smallest-unit amount (the run proceeds to the time-window stage)
and rejects any smaller value with `valid = false` and an error string
carrying both the required and the paid integer amounts. -/
theorem amount_check_threshold
    (cfg : Config) (payload : PaymentPayload) (a : ℚ) (now : Int)
    (fac : FacilitatorOutcome) (v : Int)
    (hscheme : payload.scheme = "eip3009")
    (hrec : toLowerCase payload.to' = toLowerCase cfg.walletsBase)
    (hv : parseIntJs payload.value = some v) :
    (toSmallestUnit a ≤ v →
      verifyPaymentRun cfg payload a now fac none =
        (if (jsLt (some now) (parseIntJs payload.validAfter)
             || jsGt (some now) (parseIntJs payload.validBefore)) = true then
           ({ valid := false, transactionHash := none
              error := some "Payment authorization expired" }, false)
         else (verifyWithFacilitator cfg payload fac, true))) ∧
    (v < toSmallestUnit a →
      verifyPayment cfg payload a now fac none =
        { valid := false, transactionHash := none
          error := some ("Insufficient payment: " ++ toString v ++ " < "
            ++ toString (toSmallestUnit a)) }) := by
  constructor
  · intro hge
    have hlt : jsLt (some v) (some (toSmallestUnit a)) = false := by
      simp [jsLt]
      omega
    simp [verifyPaymentRun, hscheme, hrec, hv, hlt]
  · intro hlt
    have h : jsLt (some v) (some (toSmallestUnit a)) = true := by
      simp [jsLt, hlt]
    simp [verifyPayment, verifyPaymentRun, hscheme, hrec, hv, h, jsNumToString]

/-- Witness for `amount_check_threshold`: paying one smallest unit less
than the 2000000 required is rejected with both amounts in the error. -/
theorem amount_check_threshold_witness :
    verifyPayment cfgProd payloadUnderpay 2 50 (.httpOk "t") none =
      { valid := false, transactionHash := none
        error := some "Insufficient payment: 1999999 < 2000000" } := by
  have h := (amount_check_threshold cfgProd payloadUnderpay 2 50 (.httpOk "t") 1999999
    (by decide) (by decide) (by decide)).2 (by rw [tsu_two]; decide)
  rw [tsu_two] at h
  exact h

/-- C8: the time-window check of `verifyPayment` is inclusive at both
bounds: `validAfter ≤ now ≤ validBefore` proceeds to the facilitator call,
while `now < validAfter` or `now > validBefore` yields `valid = false`
with the expiry error. -/
theorem time_window_inclusive
    (cfg : Config) (payload : PaymentPayload) (a : ℚ) (now : Int)
    (fac : FacilitatorOutcome) (va vb : Int)
    (hscheme : payload.scheme = "eip3009")
    (hrec : toLowerCase payload.to' = toLowerCase cfg.walletsBase)
    (hamount : jsLt (parseIntJs payload.value) (some (toSmallestUnit a)) = false)
    (hva : parseIntJs payload.validAfter = some va)
    (hvb : parseIntJs payload.validBefore = some vb) :
    (va ≤ now → now ≤ vb →
      verifyPaymentRun cfg payload a now fac none =
        (verifyWithFacilitator cfg payload fac, true)) ∧
    (now < va ∨ vb < now →
      verifyPayment cfg payload a now fac none =
        { valid := false, transactionHash := none
          error := some "Payment authorization expired" }) := by
  constructor
  · intro h1 h2
    have hc : (jsLt (some now) (parseIntJs payload.validAfter)
        || jsGt (some now) (parseIntJs payload.validBefore)) = false := by
      simp [jsLt, jsGt, hva, hvb]
      omega
    simp [verifyPaymentRun, hscheme, hrec, hamount, hc]
  · intro h1
    have hc : (jsLt (some now) (parseIntJs payload.validAfter)
        || jsGt (some now) (parseIntJs payload.validBefore)) = true := by
      rcases h1 with h1 | h1 <;> simp [jsLt, jsGt, hva, hvb] <;> omega
    simp [verifyPayment, verifyPaymentRun, hscheme, hrec, hamount, hc]

/-- Witness for `time_window_inclusive`: with window [0, 100], the instants
0 and 100 are both accepted and 101 is rejected. -/
theorem time_window_inclusive_witness :
    verifyPaymentRun cfgProd payloadEx 2 0 (.httpOk "t") none =
      (verifyWithFacilitator cfgProd payloadEx (.httpOk "t"), true) ∧
    verifyPaymentRun cfgProd payloadEx 2 100 (.httpOk "t") none =
      (verifyWithFacilitator cfgProd payloadEx (.httpOk "t"), true) ∧
    verifyPayment cfgProd payloadEx 2 101 (.httpOk "t") none =
      { valid := false, transactionHash := none
        error := some "Payment authorization expired" } :=
  ⟨(time_window_inclusive cfgProd payloadEx 2 0 (.httpOk "t") 0 100
      (by decide) (by decide) (by rw [tsu_two]; decide) (by decide) (by decide)).1
      (by decide) (by decide),
   (time_window_inclusive cfgProd payloadEx 2 100 (.httpOk "t") 0 100
      (by decide) (by decide) (by rw [tsu_two]; decide) (by decide) (by decide)).1
      (by decide) (by decide),
   (time_window_inclusive cfgProd payloadEx 2 101 (.httpOk "t") 0 100
      (by decide) (by decide) (by rw [tsu_two]; decide) (by decide) (by decide)).2
      (Or.inr (by decide))⟩

/-- A decoded object with any absent mandatory field fails the field
check. -/
theorem parseFields_isNone_of_missing (r : RawPayload)
    (hm : r.scheme = none ∨ r.signature = none ∨ r.from' = none ∨ r.to' = none ∨
      r.value = none ∨ r.validAfter = none ∨ r.validBefore = none ∨ r.nonce = none) :
    parseFields r = none := by
  rcases hm with h | h | h | h | h | h | h | h <;> simp [parseFields, h]

/-- A payload returned by the field check carries exactly the eight decoded
fields — never a partial object. -/
theorem parseFields_fields (r : RawPayload) (p : PaymentPayload)
    (hp : parseFields r = some p) :
    r.scheme = some p.scheme ∧ r.signature = some p.signature ∧
    r.from' = some p.from' ∧ r.to' = some p.to' ∧ r.value = some p.value ∧
    r.validAfter = some p.validAfter ∧ r.validBefore = some p.validBefore ∧
    r.nonce = some p.nonce := by
  cases h1 : r.scheme with
  | none => simp [parseFields, h1] at hp
  | some s1 =>
  cases h2 : r.signature with
  | none => simp [parseFields, h1, h2] at hp
  | some s2 =>
  cases h3 : r.from' with
  | none => simp [parseFields, h1, h2, h3] at hp
  | some s3 =>
  cases h4 : r.to' with
  | none => simp [parseFields, h1, h2, h3, h4] at hp
  | some s4 =>
  cases h5 : r.value with
  | none => simp [parseFields, h1, h2, h3, h4, h5] at hp
  | some s5 =>
  cases h6 : r.validAfter with
  | none => simp [parseFields, h1, h2, h3, h4, h5, h6] at hp
  | some s6 =>
  cases h7 : r.validBefore with
  | none => simp [parseFields, h1, h2, h3, h4, h5, h6, h7] at hp
  | some s7 =>
  cases h8 : r.nonce with
  | none => simp [parseFields, h1, h2, h3, h4, h5, h6, h7, h8] at hp
  | some s8 =>
  simp only [parseFields, h1, h2, h3, h4, h5, h6, h7, h8] at hp
  have hp' : (if s1 = "" ∨ s2 = "" ∨ s3 = "" ∨ s4 = "" ∨ s5 = "" ∨ s6 = "" ∨ s7 = "" ∨ s8 = ""
      then (none : Option PaymentPayload)
      else some ⟨s1, s2, s3, s4, s5, s6, s7, s8⟩) = some p := hp
  split at hp'
  · exact absurd hp' (by simp)
  · obtain rfl : PaymentPayload.mk s1 s2 s3 s4 s5 s6 s7 s8 = p := Option.some.inj hp'
    exact ⟨rfl, rfl, rfl, rfl, rfl, rfl, rfl, rfl⟩

/-- C9: whenever the header's JSON decoding succeeds but any one of the
eight mandatory fields is absent, `parsePaymentHeader` returns the same
failure — `none` — regardless of which field is missing; and whenever it
does return a payload, that payload's fields are exactly the eight decoded
fields, so no partial object is ever produced. -/
theorem missing_field_rejection (h : String) (ps : List (String × String))
    (hparse : jsonParse h = some ps) :
    (((decodeRaw ps).scheme = none ∨ (decodeRaw ps).signature = none ∨
      (decodeRaw ps).from' = none ∨ (decodeRaw ps).to' = none ∨
      (decodeRaw ps).value = none ∨ (decodeRaw ps).validAfter = none ∨
      (decodeRaw ps).validBefore = none ∨ (decodeRaw ps).nonce = none) →
      parsePaymentHeader (some h) = none) ∧
    (∀ p : PaymentPayload, parsePaymentHeader (some h) = some p →
      (decodeRaw ps).scheme = some p.scheme ∧
      (decodeRaw ps).signature = some p.signature ∧
      (decodeRaw ps).from' = some p.from' ∧ (decodeRaw ps).to' = some p.to' ∧
      (decodeRaw ps).value = some p.value ∧
      (decodeRaw ps).validAfter = some p.validAfter ∧
      (decodeRaw ps).validBefore = some p.validBefore ∧
      (decodeRaw ps).nonce = some p.nonce) := by
  have hne : h ≠ "" := by
    intro e
    subst e
    have hnone : jsonParse "" = none := rfl
    rw [hnone] at hparse
    exact Option.noConfusion hparse
  constructor
  · intro hm
    simp only [parsePaymentHeader, if_neg hne, hparse]
    exact parseFields_isNone_of_missing _ hm
  · intro p hp
    simp only [parsePaymentHeader, if_neg hne, hparse] at hp
    exact parseFields_fields _ _ hp

/-- A header identical to `headerEx` except that its `nonce` field is
absent. -/
def headerMissing : String :=
  "\x7b\"scheme\":\"eip3009\",\"signature\":\"sig\",\"from\":\"0xpayer\",\"to\":\"0xAbC\",\"value\":\"2000000\",\"validAfter\":\"0\",\"validBefore\":\"100\"\x7d"

set_option maxRecDepth 100000 in
/-- Witness for `missing_field_rejection`: the header missing its nonce
decodes but is rejected. -/
theorem missing_field_rejection_witness :
    parsePaymentHeader (some headerMissing) = none :=
  (missing_field_rejection headerMissing
    [("scheme", "eip3009"), ("signature", "sig"), ("from", "0xpayer"),
     ("to", "0xAbC"), ("value", "2000000"), ("validAfter", "0"),
     ("validBefore", "100")]
    (by decide)).1 (by decide)

/-- Inversion for mandatory mode: `requirePayment` hands the request to
`next` only on the non-POST bypass (context unset) or after a parse and a
verification that succeeded, in which case the attached context is the
verified one. -/
theorem requirePayment_next_inv
    (cfg : Config) (mw : X402MiddlewareConfig) (req : Request) (now : Int)
    (fac : FacilitatorOutcome) (mwExn : Bool) (verifyExn : Option String)
    (octx : Option PaymentContext)
    (hrun : requirePayment cfg mw req now fac mwExn verifyExn = .next octx) :
    (req.method ≠ "POST" ∧ octx = none) ∨
    (req.method = "POST" ∧ mwExn = false ∧ ∃ h payload,
      req.xPaymentHeader = some h ∧ parsePaymentHeader (some h) = some payload ∧
      (verifyPayment cfg payload mw.amount now fac verifyExn).valid = true ∧
      octx = some { verified := true, amount := mw.amount
                    transactionHash := (verifyPayment cfg payload mw.amount now fac verifyExn).transactionHash
                    payer := some payload.from' }) := by
  by_cases hm : req.method = "POST"
  · right
    cases mwExn with
    | true => simp [requirePayment, hm] at hrun
    | false =>
      rcases hh : req.xPaymentHeader with _ | hstr
      · simp [requirePayment, hm, hh] at hrun
      · by_cases he : hstr = ""
        · simp [requirePayment, hm, hh, he] at hrun
        · rcases hp : parsePaymentHeader (some hstr) with _ | payload
          · simp [requirePayment, hm, hh, he, hp] at hrun
          · by_cases hv : (verifyPayment cfg payload mw.amount now fac verifyExn).valid = false
            · simp [requirePayment, hm, hh, he, hp, hv] at hrun
            · refine ⟨hm, rfl, hstr, payload, rfl, hp, by simpa using hv, ?_⟩
              simp [requirePayment, hm, hh, he, hp, hv] at hrun
              exact hrun.symm
  · left
    refine ⟨hm, ?_⟩
    simp [requirePayment, hm] at hrun
    exact hrun.symm

/-- C1: in both middleware modes, a payment context with `verified = true`
is attached only when the header parsed to an authorization for which the
full verification pipeline (`verifyPayment`, at the configured required
amount) returned `valid = true`. -/
theorem verified_context_requires_valid_verification
    (cfg : Config) (mw : X402MiddlewareConfig) (req : Request) (now : Int)
    (fac : FacilitatorOutcome) (mwExn : Bool) (verifyExn : Option String)
    (ctx : PaymentContext)
    (hrun : requirePayment cfg mw req now fac mwExn verifyExn = .next (some ctx) ∨
            optionalPayment cfg mw req now fac mwExn verifyExn = .next (some ctx))
    (hver : ctx.verified = true) :
    ∃ h payload, req.xPaymentHeader = some h ∧
      parsePaymentHeader (some h) = some payload ∧
      (verifyPayment cfg payload mw.amount now fac verifyExn).valid = true := by
  rcases hrun with hrun | hrun
  · rcases requirePayment_next_inv cfg mw req now fac mwExn verifyExn (some ctx) hrun with
      ⟨_, hnone⟩ | ⟨_, _, h, payload, hh, hp, hvalid, _⟩
    · exact absurd hnone (by simp)
    · exact ⟨h, payload, hh, hp, hvalid⟩
  · cases mwExn with
    | true =>
      simp [optionalPayment] at hrun
      rw [← hrun] at hver
      simp [unverifiedContext] at hver
    | false =>
      rcases hh : req.xPaymentHeader with _ | hstr
      · simp [optionalPayment, hh] at hrun
        rw [← hrun] at hver
        simp [unverifiedContext] at hver
      · by_cases he : hstr = ""
        · simp [optionalPayment, hh, he] at hrun
          rw [← hrun] at hver
          simp [unverifiedContext] at hver
        · rcases hp : parsePaymentHeader (some hstr) with _ | payload
          · simp [optionalPayment, hh, he, hp] at hrun
          · by_cases hv : (verifyPayment cfg payload mw.amount now fac verifyExn).valid = true
            · exact ⟨hstr, payload, rfl, hp, hv⟩
            · have hv' : (verifyPayment cfg payload mw.amount now fac verifyExn).valid = false := by
                simpa using hv
              simp [optionalPayment, hh, he, hp, hv'] at hrun
              rw [← hrun] at hver
              simp [unverifiedContext] at hver

set_option maxRecDepth 100000 in
/-- A successful mandatory-mode run on the sample request attaches the
verified context. -/
theorem requirePayment_success_run :
    requirePayment cfgProd mwEx reqEx 50 (.httpOk "0xabc") false none =
      .next (some { verified := true, amount := mwEx.amount
                    transactionHash := some "0xabc", payer := some "0xpayer" }) := by
  have hparse : parsePaymentHeader (some headerEx) = some payloadEx := by decide
  have hverify : verifyPayment cfgProd payloadEx 2 50 (.httpOk "0xabc") none =
      { valid := true, transactionHash := some "0xabc", error := none } := by
    simp only [verifyPayment, verifyPaymentRun, tsu_two]
    decide
  have hne : headerEx ≠ "" := by decide
  simp [requirePayment, reqEx, hne, hparse, mwEx, hverify]
  decide

set_option maxRecDepth 100000 in
/-- Witness for `verified_context_requires_valid_verification` on the
successful sample run. -/
theorem verified_context_requires_valid_verification_witness :
    ∃ h payload, reqEx.xPaymentHeader = some h ∧
      parsePaymentHeader (some h) = some payload ∧
      (verifyPayment cfgProd payload mwEx.amount 50 (.httpOk "0xabc") none).valid = true :=
  verified_context_requires_valid_verification cfgProd mwEx reqEx 50 (.httpOk "0xabc")
    false none
    { verified := true, amount := mwEx.amount, transactionHash := some "0xabc"
      payer := some "0xpayer" }
    (Or.inl requirePayment_success_run) rfl

set_option maxRecDepth 100000 in
/-- C5 counterexample: an exception raised inside `verifyPayment` (here
with message "boom") on an otherwise well-formed POST request is caught by
`verifyPayment`'s own handler and surfaced by the mandatory-mode gate as a
402 payment-verification failure carrying the exception message — not as a
5xx response. -/
theorem verify_exception_surfaces_as_402 :
    requirePayment cfgProd mwEx reqEx 50 (.httpOk "0xabc") false (some "boom") =
      .respond { status := 402, error := some "Payment Verification Failed"
                 message := some "boom", maxAmountRequired := none } := by
  decide

/-- C5 amended: an exception thrown by the middleware body itself produces
the 500 response in mandatory mode; but an exception raised inside
`verifyPayment` is caught there, converted to `valid = false` with the
exception's message, and surfaced as a 402 payment-verification rejection.
In neither case does a POST request pass downstream unverified: `next` is
reached only with a `verified = true` context. -/
theorem internal_fault_handling
    (cfg : Config) (mw : X402MiddlewareConfig) (req : Request) (now : Int)
    (fac : FacilitatorOutcome) (verifyExn : Option String) (msg : String)
    (h : String) (payload : PaymentPayload) :
    (req.method = "POST" →
      requirePayment cfg mw req now fac true verifyExn =
        .respond { status := 500, error := some "Internal Server Error"
                   message := some "Payment processing failed", maxAmountRequired := none }) ∧
    (req.method = "POST" → req.xPaymentHeader = some h →
      parsePaymentHeader (some h) = some payload →
      requirePayment cfg mw req now fac false (some msg) =
        .respond { status := 402, error := some "Payment Verification Failed"
                   message := some msg, maxAmountRequired := none }) ∧
    (∀ mwExn vExn octx, req.method = "POST" →
      requirePayment cfg mw req now fac mwExn vExn = .next octx →
      ∃ c, octx = some c ∧ c.verified = true) := by
  refine ⟨?_, ?_, ?_⟩
  · intro hm
    simp [requirePayment, hm]
  · intro hm hh hp
    have hne : h ≠ "" := by
      intro e
      subst e
      rw [show parsePaymentHeader (some "") = none from rfl] at hp
      exact Option.noConfusion hp
    have hv : verifyPayment cfg payload mw.amount now fac (some msg) =
        { valid := false, transactionHash := none, error := some msg } := rfl
    simp [requirePayment, hm, hh, hne, hp, hv]
  · intro mwExn vExn octx hm hrun
    rcases requirePayment_next_inv cfg mw req now fac mwExn vExn octx hrun with
      ⟨hnm, _⟩ | ⟨_, _, _, _, _, _, _, hoctx⟩
    · exact absurd hm hnm
    · exact ⟨_, hoctx, rfl⟩

set_option maxRecDepth 100000 in
/-- Witness for `internal_fault_handling`: concrete 500 and 402 runs on
the sample request. -/
theorem internal_fault_handling_witness :
    requirePayment cfgProd mwEx reqEx 50 (.httpOk "0xabc") true none =
      .respond { status := 500, error := some "Internal Server Error"
                 message := some "Payment processing failed", maxAmountRequired := none } ∧
    requirePayment cfgProd mwEx reqEx 50 (.httpOk "0xabc") false (some "cfg-fail") =
      .respond { status := 402, error := some "Payment Verification Failed"
                 message := some "cfg-fail", maxAmountRequired := none } :=
  ⟨(internal_fault_handling cfgProd mwEx reqEx 50 (.httpOk "0xabc") none "cfg-fail"
      headerEx payloadEx).1 rfl,
   (internal_fault_handling cfgProd mwEx reqEx 50 (.httpOk "0xabc") none "cfg-fail"
      headerEx payloadEx).2.1 rfl rfl (by decide)⟩

/-- C2 counterexample: in optional mode, a POST request with a present but
unparsable `x-payment` header makes `optionalPayment` call `next` without
ever assigning `req.x402Payment` — the context is left unset instead of
being attached with `verified = false`. -/
theorem optional_parse_failure_leaves_context_unset :
    optionalPayment cfgProd mwEx ⟨"POST", "/api/execute", some "nonsense"⟩ 50
      (.httpOk "0xabc") false none = .next none := by
  decide

/-- C2 amended: `optionalPayment` always invokes `next` (the request is
never blocked); the absent-header, verification-failure and
internal-exception paths attach the `verified = false` context; but the
parse-failure path invokes `next` with the context left unset. -/
theorem optional_mode_always_continues
    (cfg : Config) (mw : X402MiddlewareConfig) (req : Request) (now : Int)
    (fac : FacilitatorOutcome) (mwExn : Bool) (verifyExn : Option String) :
    (∃ octx, optionalPayment cfg mw req now fac mwExn verifyExn = .next octx) ∧
    (mwExn = true →
      optionalPayment cfg mw req now fac mwExn verifyExn = .next (some unverifiedContext)) ∧
    (falsy req.xPaymentHeader = true → mwExn = false →
      optionalPayment cfg mw req now fac mwExn verifyExn = .next (some unverifiedContext)) ∧
    (∀ h payload, req.xPaymentHeader = some h →
      parsePaymentHeader (some h) = some payload →
      (verifyPayment cfg payload mw.amount now fac verifyExn).valid = false →
      mwExn = false →
      optionalPayment cfg mw req now fac mwExn verifyExn = .next (some unverifiedContext)) ∧
    (∀ h, req.xPaymentHeader = some h → h ≠ "" →
      parsePaymentHeader (some h) = none → mwExn = false →
      optionalPayment cfg mw req now fac mwExn verifyExn = .next none) := by
  refine ⟨?_, ?_, ?_, ?_, ?_⟩
  · cases mwExn with
    | true => exact ⟨some unverifiedContext, by simp [optionalPayment]⟩
    | false =>
      rcases hh : req.xPaymentHeader with _ | hstr
      · exact ⟨some unverifiedContext, by simp [optionalPayment, hh]⟩
      · by_cases he : hstr = ""
        · exact ⟨some unverifiedContext, by simp [optionalPayment, hh, he]⟩
        · rcases hp : parsePaymentHeader (some hstr) with _ | payload
          · exact ⟨none, by simp [optionalPayment, hh, he, hp]⟩
          · by_cases hv : (verifyPayment cfg payload mw.amount now fac verifyExn).valid = true
            · exact ⟨some { verified := true, amount := mw.amount
                            transactionHash := (verifyPayment cfg payload mw.amount now fac verifyExn).transactionHash
                            payer := some payload.from' },
                by simp [optionalPayment, hh, he, hp, hv]⟩
            · have hv' : (verifyPayment cfg payload mw.amount now fac verifyExn).valid = false := by
                simpa using hv
              exact ⟨some unverifiedContext, by simp [optionalPayment, hh, he, hp, hv']⟩
  · intro hex
    subst hex
    simp [optionalPayment]
  · intro hfalsy hex
    subst hex
    rcases hh : req.xPaymentHeader with _ | hstr
    · simp [optionalPayment, hh]
    · rw [hh] at hfalsy
      have he : hstr = "" := by simpa [falsy] using hfalsy
      simp [optionalPayment, hh, he]
  · intro h payload hh hp hv hex
    subst hex
    have hne : h ≠ "" := by
      intro e
      subst e
      rw [show parsePaymentHeader (some "") = none from rfl] at hp
      exact Option.noConfusion hp
    simp [optionalPayment, hh, hne, hp, hv]
  · intro h hh hne hp hex
    subst hex
    simp [optionalPayment, hh, hne, hp]

/-- Witness for `optional_mode_always_continues`: the absent-header path
attaches the unverified context and continues. -/
theorem optional_mode_always_continues_witness :
    optionalPayment cfgProd mwEx ⟨"POST", "/api/execute", none⟩ 50 (.httpOk "t")
      false none = .next (some unverifiedContext) :=
  (optional_mode_always_continues cfgProd mwEx ⟨"POST", "/api/execute", none⟩ 50
    (.httpOk "t") false none).2.2.1 rfl rfl

/-- C3 counterexample: the inline conversion of the 402 requirement body
(`config.amount * 1_000_000`, with no `Math.floor`) disagrees with the
floor conversion: at amount 1/2000000 it produces 1/2 where the floor is
0.  The claim that every conversion site equals `floor(a * 10^6)` is
therefore false of the middleware site. -/
theorem middleware_amount_conversion_not_floor :
    midMaxAmountRequired (1 / 2000000) ≠ ((toSmallestUnit (1 / 2000000) : ℤ) : ℚ) := by
  have h1 : midMaxAmountRequired ((1 : ℚ) / 2000000) = 1 / 2 := by
    norm_num [midMaxAmountRequired]
  have h2 : toSmallestUnit ((1 : ℚ) / 2000000) = 0 := by
    norm_num [toSmallestUnit]
  rw [h1, h2]
  norm_num

/-- C3 amended: the payment-manager conversion `toSmallestUnit` is exactly
`floor(a * 10^6)` and never rounds up; the middleware's inline 402-body
conversion multiplies by `10^6` without flooring, so it coincides with the
floor conversion exactly when `a * 10^6` is integral; in particular, with
the header absent and required amount 0.02 the emitted requirement carries
`maxAmountRequired = "20000"`. -/
theorem amount_conversion_floor_policy (a : ℚ) :
    toSmallestUnit a = ⌊a * 1000000⌋ ∧
    ((toSmallestUnit a : ℤ) : ℚ) ≤ a * 1000000 ∧
    midMaxAmountRequired a = a * 1000000 ∧
    ((a * 1000000).den = 1 →
      midMaxAmountRequired a = ((toSmallestUnit a : ℤ) : ℚ)) ∧
    requirePayment cfgProd ⟨0.02, "Code execution"⟩ ⟨"POST", "/api/execute", none⟩ 50
      (.httpOk "t") false none =
      .respond { status := 402, error := some "Payment Required"
                 message := none, maxAmountRequired := some "20000" } := by
  refine ⟨rfl, Int.floor_le _, rfl, ?_, ?_⟩
  · intro hden
    have hq : (((a * 1000000).num : ℤ) : ℚ) = a * 1000000 := by
      have hd := Rat.num_div_den (a * 1000000)
      rw [hden] at hd
      simpa using hd
    have h2 : toSmallestUnit a = (a * 1000000).num := by
      unfold toSmallestUnit
      conv_lhs => rw [← hq]
      exact Int.floor_intCast _
    show midMaxAmountRequired a = ((toSmallestUnit a : ℤ) : ℚ)
    rw [h2, hq]
    rfl
  · have hmax : jsNumberToString (midMaxAmountRequired 0.02) = "20000" := by
      have hv : midMaxAmountRequired (0.02 : ℚ) = ((20000 : ℕ) : ℚ) := by
        norm_num [midMaxAmountRequired]
      rw [hv, jsNumberToString_natCast]
      rfl
    simp [requirePayment, paymentRequiredResponse, hmax]

/-- Witness for `amount_conversion_floor_policy`: at 0.02 USDC the two
conversion sites agree. -/
theorem amount_conversion_floor_policy_witness :
    midMaxAmountRequired 0.02 = ((toSmallestUnit 0.02 : ℤ) : ℚ) :=
  (amount_conversion_floor_policy 0.02).2.2.2.1 (by
    rw [show (0.02 : ℚ) * 1000000 = 20000 by norm_num]
    simp)

end X402
